import Mathlib

/-!
Verification of the pyhomie core (`pyhomie/__init__.py`): a shallow embedding of
the Device / Node / Property entity tree, the device state machine with its
restricted-state bracketing, the MQTT-style publish/subscribe effects, the
attach pass triggered by a successful connection, and the inbound message
routing with the datatype codec.

Effects (publishes, subscribes, observer hooks) are recorded as an explicit
event trace; Python exceptions are modelled with `Except`.  Library primitives
(`str`/`int`/`float` literal conversion, `isodate` parsing, `datetime.isoformat`)
are modelled as executable Lean functions on the grammar the code exercises;
Python floats are modelled by the rational value of their shortest decimal
representation (Python guarantees `float(str(x)) == x`, so on decimal-exact
representatives such as `3.14` the decimal model agrees with CPython).
-/

namespace Pyhomie

/-- Python exceptions raised by the code paths we model. -/
inductive PyErr where
  | runtime (msg : String)
  | keyErr (msg : String)
  | valueErr (msg : String)
  | typeErr (msg : String)
  | nameErr (msg : String)
  | attrErr (msg : String)
deriving DecidableEq, Repr

/-- `Device.State` enumeration from the source (LOST exists only on the wire,
as the will payload, and is not a member of the enum). -/
inductive DeviceState where
  | disconnected
  | init
  | ready
  | sleeping
  | alert
deriving DecidableEq, Repr, BEq

/-- The wire string of each state (`State.value` in the source). -/
def DeviceState.str : DeviceState → String
  | .disconnected => "disconnected"
  | .init => "init"
  | .ready => "ready"
  | .sleeping => "sleeping"
  | .alert => "alert"

/-- `Device.RESTRICTED_STATES`: states where attribute changes must be bracketed. -/
def RESTRICTED_STATES : List DeviceState :=
  [DeviceState.ready, DeviceState.sleeping, DeviceState.alert]

/-- `state in Device.RESTRICTED_STATES`. -/
def DeviceState.restricted (s : DeviceState) : Bool :=
  RESTRICTED_STATES.contains s

/-- A Python `datetime` value: calendar fields plus an optional UTC offset in
minutes (UTC itself is offset 0; naive datetimes have no offset). -/
structure PyDateTime where
  year : Nat
  month : Nat
  day : Nat
  hour : Nat
  minute : Nat
  second : Nat
  tzMinutes : Option Int
deriving DecidableEq, Repr

/-- A Python `timedelta`, normalized the way CPython stores it:
`0 ≤ seconds < 86400` and `0 ≤ microseconds < 10^6`, with `days` signed. -/
structure PyTimeDelta where
  days : Int
  seconds : Nat
  microseconds : Nat
deriving DecidableEq, Repr

/-- Build a `timedelta` from day and second counts, normalizing like CPython. -/
def mkTimeDelta (days seconds : Int) : PyTimeDelta :=
  let total : Int := days * 86400 + seconds
  { days := total.ediv 86400, seconds := (total.emod 86400).toNat, microseconds := 0 }

/-- A Python float, modelled as the decimal value of its shortest `repr`:
`mant * 10 ^ (-exp10)` with the mantissa carrying no trailing zero unless the
exponent is zero. CPython guarantees `float(repr(x)) == x`, so on values whose
shortest repr is a plain decimal such as `3.14` this model coincides with the
IEEE semantics the code relies on. -/
structure PyFloat where
  mant : Int
  exp10 : Nat
deriving DecidableEq, Repr

/-- Normalize a decimal mantissa/exponent pair by stripping trailing zeros. -/
def normFloat (m : Int) : Nat → PyFloat
  | 0 => { mant := m, exp10 := 0 }
  | Nat.succ e => if m % 10 = 0 then normFloat (m / 10) e else { mant := m, exp10 := Nat.succ e }

/-- The dynamically-typed Python values a `Property` can hold. -/
inductive PyValue where
  | int (n : Int)
  | float (f : PyFloat)
  | bool (b : Bool)
  | str (s : String)
  | datetime (d : PyDateTime)
  | duration (t : PyTimeDelta)
  | bytes (bs : List Nat)
deriving DecidableEq, Repr

/-! ## Numeric literal primitives (`str`, `int()`, `float()`) -/

/-- Python `str` of an `int` (Lean's `Int` printing matches: `-42 ↦ "-42"`). -/
def pyIntStr (n : Int) : String := toString n

/-- Whether every character is a decimal digit. -/
def allDigits (l : List Char) : Bool := l.all (fun c => c.isDigit)

/-- Value of a digit string read left to right. -/
def digitsToNat (l : List Char) : Nat :=
  l.foldl (fun a c => a * 10 + (c.toNat - 48)) 0

/-- Python `int(s)`: optional sign followed by at least one digit (the code
only feeds it inbound payloads; whitespace/underscore forms are not modelled).
Raises `ValueError` on anything else, as CPython does. -/
def parseInt (s : String) : Except PyErr Int :=
  let err : Except PyErr Int :=
    .error (.valueErr ("invalid literal for int() with base 10: '" ++ s ++ "'"))
  match s.data with
  | [] => err
  | '-' :: t => if t ≠ [] ∧ allDigits t then .ok (-(digitsToNat t : Int)) else err
  | '+' :: t => if t ≠ [] ∧ allDigits t then .ok ((digitsToNat t : Int)) else err
  | l => if allDigits l then .ok ((digitsToNat l : Int)) else err

/-- Decimal part parser for `float()`: digits `.` digits (either side may be
empty but not both). Returns the normalized decimal float. -/
def parseDecimalCore (l : List Char) : Option PyFloat :=
  let intPart := l.takeWhile (fun c => c.isDigit)
  let rest := l.drop intPart.length
  match rest with
  | [] => if intPart ≠ [] then some (normFloat (digitsToNat intPart : Int) 0) else none
  | '.' :: frac =>
    if allDigits frac ∧ (intPart ≠ [] ∨ frac ≠ []) then
      some (normFloat ((digitsToNat intPart * 10 ^ frac.length + digitsToNat frac : Nat) : Int)
        frac.length)
    else none
  | _ => none

/-- Python `float(s)` on the plain decimal grammar the codec exercises. -/
def parseFloat (s : String) : Except PyErr PyFloat :=
  let core :=
    match s.data with
    | '-' :: t => (parseDecimalCore t).map (fun f => { f with mant := -f.mant })
    | '+' :: t => parseDecimalCore t
    | l => parseDecimalCore l
  match core with
  | some f => .ok f
  | none => .error (.valueErr ("could not convert string to float: '" ++ s ++ "'"))

/-- Left-pad a string of digits with zeros to the given length. -/
def padLeft (s : String) (w : Nat) : String :=
  String.mk (List.replicate (w - s.length) '0') ++ s

/-- Fixed-point decimal print of an unsigned mantissa/exponent pair, with `.0`
appended for integral values, as CPython prints. -/
def floatStrPos (m : Nat) (e : Nat) : String :=
  if e = 0 then toString m ++ ".0"
  else
    let s := padLeft (toString m) (e + 1)
    let cut := s.length - e
    String.mk (s.data.take cut) ++ "." ++ String.mk (s.data.drop cut)

/-- Python `str` of a float, on the decimal model described above. -/
def floatStr (f : PyFloat) : String :=
  if f.mant < 0 then "-" ++ floatStrPos f.mant.natAbs f.exp10
  else floatStrPos f.mant.natAbs f.exp10

/-! ## Datetime and duration primitives (`datetime.isoformat`, `isodate`) -/

/-- Zero-pad a natural number to width 2. -/
def pad2 (n : Nat) : String := padLeft (toString n) 2

/-- Zero-pad a natural number to width 4. -/
def pad4 (n : Nat) : String := padLeft (toString n) 4

/-- The `±HH:MM` suffix `datetime.isoformat` prints for an aware datetime. -/
def offsetStr (m : Int) : String :=
  let sign := if m < 0 then "-" else "+"
  let a := m.natAbs
  sign ++ pad2 (a / 60) ++ ":" ++ pad2 (a % 60)

/-- `datetime.isoformat()`: `YYYY-MM-DDTHH:MM:SS` with the offset suffix for
aware values (microseconds are zero on every value the codec round-trips). -/
def isoformat (d : PyDateTime) : String :=
  pad4 d.year ++ "-" ++ pad2 d.month ++ "-" ++ pad2 d.day ++ "T" ++
    pad2 d.hour ++ ":" ++ pad2 d.minute ++ ":" ++ pad2 d.second ++
    (match d.tzMinutes with
     | none => ""
     | some m => offsetStr m)

/-- Read exactly `k` digits from the front; yield their value and the rest. -/
def readDigits (k : Nat) (l : List Char) : Option (Nat × List Char) :=
  let ds := l.take k
  if ds.length = k ∧ allDigits ds then some (digitsToNat ds, l.drop k) else none

/-- Consume one expected character. -/
def expectChar (c : Char) : List Char → Option (List Char)
  | x :: t => if x = c then some t else none
  | [] => none

/-- Parse the trailing timezone designator: empty (naive), `Z` (UTC), or
`±HH:MM`. -/
def parseTz : List Char → Option (Option Int)
  | [] => some none
  | ['Z'] => some (some 0)
  | sign :: t =>
    if sign = '+' ∨ sign = '-' then
      match readDigits 2 t with
      | some (h, rest) =>
        match expectChar ':' rest with
        | some rest2 =>
          match readDigits 2 rest2 with
          | some (m, []) =>
            let v : Int := (h * 60 + m : Nat)
            some (some (if sign = '-' then -v else v))
          | _ => none
        | none => none
      | none => none
    else none

/-- `isodate.parse_datetime` on the extended-format grammar
`YYYY-MM-DDTHH:MM:SS[Z|±HH:MM]` (a `ValueError` subclass is raised otherwise). -/
def parseDatetime (s : String) : Except PyErr PyDateTime :=
  let err : Except PyErr PyDateTime :=
    .error (.valueErr ("ISO 8601 time designator 'T' missing. Unable to parse datetime string '" ++ s ++ "'"))
  let r : Option PyDateTime := do
    let (y, r1) ← readDigits 4 s.data
    let r1 ← expectChar '-' r1
    let (mo, r2) ← readDigits 2 r1
    let r2 ← expectChar '-' r2
    let (dy, r3) ← readDigits 2 r2
    let r3 ← expectChar 'T' r3
    let (h, r4) ← readDigits 2 r3
    let r4 ← expectChar ':' r4
    let (mi, r5) ← readDigits 2 r4
    let r5 ← expectChar ':' r5
    let (se, r6) ← readDigits 2 r5
    let tz ← parseTz r6
    pure { year := y, month := mo, day := dy, hour := h, minute := mi, second := se, tzMinutes := tz }
  match r with
  | some d => .ok d
  | none => err

/-- The duration wire form produced by `Property.publish`:
`"P{}DT{}S".format(payload.days, payload.seconds)`. -/
def encodeDuration (t : PyTimeDelta) : String :=
  "P" ++ toString t.days ++ "DT" ++ toString t.seconds ++ "S"

/-- `isodate.parse_duration` on the `PnDTnS` grammar the encoder emits; the
result is a `timedelta`, normalized by its constructor. -/
def parseDuration (s : String) : Except PyErr PyTimeDelta :=
  let err : Except PyErr PyTimeDelta :=
    .error (.valueErr ("Unable to parse duration string '" ++ s ++ "'"))
  let r : Option PyTimeDelta := do
    let r0 ← expectChar 'P' s.data
    let dayPart := r0.takeWhile (fun c => c.isDigit)
    let (days, r1) ←
      match expectChar 'D' (r0.drop dayPart.length) with
      | some rest => if dayPart ≠ [] then some ((digitsToNat dayPart : Int), rest) else none
      | none => if dayPart = [] then some ((0 : Int), r0) else none
    let r2 ← expectChar 'T' r1
    let secPart := r2.takeWhile (fun c => c.isDigit)
    let r3 ← expectChar 'S' (r2.drop secPart.length)
    if secPart ≠ [] ∧ r3 = [] then
      pure (mkTimeDelta days (digitsToNat secPart : Int))
    else none
  match r with
  | some t => .ok t
  | none => err

/-! ## Value codec (`Property.publish` + `paho` payload casting, and
`Property._on_message` decoding) -/

/-- Python truthiness of the values we model (used by the `boolean` encode
branch, which applies `"true" if payload else "false"` to whatever it holds). -/
def pyTruthy : PyValue → Bool
  | .int n => n ≠ 0
  | .float f => f.mant ≠ 0
  | .bool b => b
  | .str s => s ≠ ""
  | .datetime _ => true
  | .duration t => ¬(t.days = 0 ∧ t.seconds = 0 ∧ t.microseconds = 0)
  | .bytes bs => bs ≠ []

/-- Bytes shown as a string (paho passes `bytes` payloads through; we record
payloads as strings, byte-per-char, which is faithful for the ASCII payloads
the code handles). -/
def bytesAsStr (bs : List Nat) : String := String.mk (bs.map Char.ofNat)

/-- Inverse of `bytesAsStr` on ASCII payloads. -/
def strToBytes (s : String) : List Nat := s.data.map Char.toNat

/-- `paho.mqtt.client.Client.publish` payload casting of the values the code
hands it after `Property.publish` has applied the datatype-specific cases:
`int`/`float` via `str(...)`, strings unchanged, bytes passed through. -/
def pahoStr : PyValue → Except PyErr String
  | .int n => .ok (pyIntStr n)
  | .float f => .ok (floatStr f)
  | .str s => .ok s
  | .bool b => .ok (if b then "True" else "False")
  | .bytes bs => .ok (bytesAsStr bs)
  | .datetime _ => .error (.typeErr "payload must be a string, bytearray, int, float or None.")
  | .duration _ => .error (.typeErr "payload must be a string, bytearray, int, float or None.")

/-- The value-to-wire-string conversion of `Property.publish` on a bare value:
`boolean → "true"/"false"`, `datetime → isoformat`, `duration → PnDTnS`,
everything else handed to paho's casting. A non-datetime value under the
`datetime` datatype would raise `AttributeError` in Python (no `isoformat`),
and similarly for `duration`. -/
def encodeForPublish (dt : String) (v : PyValue) : Except PyErr String :=
  if dt = "boolean" then .ok (if pyTruthy v then "true" else "false")
  else if dt = "datetime" then
    match v with
    | .datetime d => .ok (isoformat d)
    | _ => .error (.attrErr "isoformat")
  else if dt = "duration" then
    match v with
    | .duration t => .ok (encodeDuration t)
    | _ => .error (.attrErr "days")
  else pahoStr v

/-- The wire-string-to-value conversion of `Property._on_message` on an inbound
`set`: one branch per datatype; the final `isinstance(self.value, bytes)`
fallback assigns the raw payload when the current value is bytes; with no
matching branch nothing is assigned (`.ok none`). -/
def decodeSet (dt : String) (current : Option PyValue) (payload : String) :
    Except PyErr (Option PyValue) :=
  if dt = "integer" then (parseInt payload).map (fun n => some (PyValue.int n))
  else if dt = "float" then (parseFloat payload).map (fun q => some (PyValue.float q))
  else if dt = "boolean" then .ok (some (PyValue.bool (payload = "true")))
  else if dt = "string" then .ok (some (PyValue.str payload))
  else if dt = "enum" then .ok (some (PyValue.str payload))
  else if dt = "color" then .ok (some (PyValue.str payload))
  else if dt = "datetime" then (parseDatetime payload).map (fun d => some (PyValue.datetime d))
  else if dt = "duration" then (parseDuration payload).map (fun t => some (PyValue.duration t))
  else
    match current with
    | some (PyValue.bytes _) => .ok (some (PyValue.bytes (strToBytes payload)))
    | _ => .ok none

/-- Decidable equality for `Except`, used to evaluate outcomes in proofs. -/
instance {e a : Type} [DecidableEq e] [DecidableEq a] : DecidableEq (Except e a) := fun x y =>
  match x, y with
  | .ok v, .ok w => if h : v = w then isTrue (by rw [h]) else isFalse (by simp [h])
  | .error v, .error w => if h : v = w then isTrue (by rw [h]) else isFalse (by simp [h])
  | .ok _, .error _ => isFalse (by simp)
  | .error _, .ok _ => isFalse (by simp)

/-! ## Effects

Every externally visible action is recorded as an event. Publish and subscribe
carry the full MQTT topic string; the hook events record the overridable
no-op callbacks (`on_connect`, `on_disconnect`, `on_message`, `on_broadcast`)
being invoked, with the value `msg.topic` holds at invocation time for the
message hooks (the source mutates the shared message object in place while
routing, so an outer hook can observe an inner level's stripped topic). -/
inductive Event where
  | pub (topic : String) (payload : Option String) (retain : Bool)
  | sub (topic : String)
  | clientDisconnect
  | broadcastHook (topic : List Char)
  | devMsgHook (topic : List Char)
  | nodeMsgHook (nodeId : String) (topic : List Char)
  | propMsgHook (propId : String) (topic : List Char)
  | devConnHook
  | nodeConnHook (nodeId : String)
  | nodeDiscHook (nodeId : String)
  | propDiscHook (propId : String)
deriving DecidableEq, Repr

/-! ## Python-dict helpers

Insertion-ordered association lists with unique keys, matching `dict`
semantics: insertion of an existing key overwrites in place, a new key is
appended. -/

/-- Dictionary lookup (`d[k]` / `k in d`). -/
def dictLookup {α : Type} : List (String × α) → String → Option α
  | [], _ => none
  | (k', v) :: t, k => if k' = k then some v else dictLookup t k

/-- Dictionary insertion (`d[k] = v`). -/
def dictInsert {α : Type} (l : List (String × α)) (k : String) (v : α) : List (String × α) :=
  if (dictLookup l k).isSome then
    l.map (fun kv => if kv.1 = k then (k, v) else kv)
  else l ++ [(k, v)]

/-- Dictionary deletion (`del d[k]`). -/
def dictRemove {α : Type} (l : List (String × α)) (k : String) : List (String × α) :=
  l.filter (fun kv => kv.1 ≠ k)

/-- `",".join(d.keys())`. -/
def joinKeys {α : Type} (l : List (String × α)) : String :=
  String.intercalate "," (l.map (fun kv => kv.1))

/-! ## Entity structures

Upward back-references (`Property._node`, `Node._device`) are modelled by an
`attached` flag plus explicit context arguments (`devTopic`, the owning
device's topic string, and `st`, the owning device's state) threaded through
the node- and property-level operations; the device-level operations supply
them. After an attach the live and pending dictionaries of the source alias
the same Python objects; the embedding keeps them as separate values and
updates the dictionary an operation actually traverses, which is faithful for
every flow modelled here. -/

/-- `pyhomie.Property` (fields of `Property.__init__`). -/
structure Property where
  id : String
  name : String
  data_type : String
  value : Option PyValue
  format : Option String
  settable : Bool
  retained : Bool
  unit : Option String
  attached : Bool
deriving DecidableEq, Repr

/-- `str(x)` as applied to the `unit` constructor argument: `None ↦ "None"`,
strings unchanged. -/
def pyStrOfOptStr : Option String → String
  | none => "None"
  | some s => s

/-- `Property.__init__`: note `self._unit = str(unit)`, so the stored unit is
always a string — `"None"` when the caller passed no unit. -/
def Property.init (id name data_type : String) (value : Option PyValue)
    (format : Option String) (settable retained : Bool) (unit : Option String) : Property :=
  { id := id, name := name, data_type := data_type, value := value, format := format,
    settable := settable, retained := retained,
    unit := some (pyStrOfOptStr unit), attached := false }

/-- `pyhomie.Node`. -/
structure Node where
  id : String
  name : String
  type : String
  properties : List (String × Property)
  propertiesInit : List (String × Property)
  attached : Bool
deriving DecidableEq, Repr

/-- `Node.__init__`. -/
def Node.init (id name type : String) (properties : List Property) : Node :=
  { id := id, name := name, type := type, properties := [],
    propertiesInit := properties.foldl (fun acc p => dictInsert acc p.id p) [],
    attached := false }

/-- `Node.properties` getter: the pending dictionary while the owning device is
disconnected, the live one otherwise. -/
def nodeProps (st : DeviceState) (n : Node) : List (String × Property) :=
  if st = DeviceState.disconnected then n.propertiesInit else n.properties

/-- `pyhomie.Device`. -/
structure Device where
  id : String
  name : String
  state : DeviceState
  nodes : List (String × Node)
  nodesInit : List (String × Node)
  extensions : List String
  implementation : Option String
  root_topic : String
  homie_version : String
deriving DecidableEq, Repr

/-- `Device.__init__`. -/
def Device.init (id name : String) (nodes : List Node) (extensions : List String)
    (implementation : Option String) (root_topic : String) : Device :=
  { id := id, name := name, state := DeviceState.disconnected,
    nodes := [], nodesInit := nodes.foldl (fun acc n => dictInsert acc n.id n) [],
    extensions := extensions, implementation := implementation,
    root_topic := root_topic, homie_version := "4.0.0" }

/-- `Device.topic` getter: `root_topic + "/" + id`. -/
def Device.topic (d : Device) : String := d.root_topic ++ "/" ++ d.id

/-- `Device.nodes` getter: the pending dictionary while disconnected, the live
one otherwise. -/
def deviceNodes (d : Device) : List (String × Node) :=
  if d.state = DeviceState.disconnected then d.nodesInit else d.nodes

/-! ## Publish / subscribe primitives and the state setter -/

/-- `Device.publish`: guard against the disconnected state, then hand the
topic-suffixed payload to the client (recorded as an event). -/
def devicePub (devTopic : String) (st : DeviceState) (sub : String)
    (payload : Option String) (retain : Bool) : Except PyErr Event :=
  if st = DeviceState.disconnected then
    .error (.runtime "Device cannot publish when disconnected")
  else .ok (.pub (devTopic ++ "/" ++ sub) payload retain)

/-- `Device.subscribe`. -/
def deviceSub (devTopic : String) (st : DeviceState) (sub : String) : Except PyErr Event :=
  if st = DeviceState.disconnected then
    .error (.runtime "Device cannot subscribe when disconnected")
  else .ok (.sub (devTopic ++ "/" ++ sub))

/-- The `Device.state` setter: assign `_state`, then publish `$state`. The
publish guard reads the state just assigned, so setting DISCONNECTED always
raises — after the assignment has taken effect (the raise is what
`Device.disconnect` runs into, see below). -/
def stateSet (devTopic : String) (s : DeviceState) : Except PyErr (DeviceState × List Event) :=
  match devicePub devTopic s "$state" (some s.str) true with
  | .error err => .error err
  | .ok ev => .ok (s, [ev])

/-- `Node.publish`: guard against a missing device back-reference, then
delegate upward with the node id spliced into the topic. -/
def nodePub (devTopic : String) (st : DeviceState) (n : Node) (sub : String)
    (payload : Option String) (retain : Bool) : Except PyErr Event :=
  if n.attached = false then
    .error (.runtime "Node cannot publish before being added to a Device")
  else devicePub devTopic st (n.id ++ "/" ++ sub) payload retain

/-- `Property.publish` with a non-empty topic (attribute publish, default
retain). -/
def propPub (devTopic nodeId : String) (st : DeviceState) (p : Property) (sub : String)
    (payload : Option String) : Except PyErr Event :=
  if p.attached = false then
    .error (.runtime "Property cannot publish before being added to a Node")
  else devicePub devTopic st (nodeId ++ "/" ++ p.id ++ "/" ++ sub) payload true

/-- `Property.publish` with the empty topic: encode the current value per the
datatype and publish it on the property's bare topic with the property's
retained flag. -/
def propPubBare (devTopic nodeId : String) (st : DeviceState) (p : Property) :
    Except PyErr Event :=
  if p.attached = false then
    .error (.runtime "Property cannot publish before being added to a Node")
  else
    match p.value with
    | none => devicePub devTopic st (nodeId ++ "/" ++ p.id) none p.retained
    | some v =>
      match encodeForPublish p.data_type v with
      | .error err => .error err
      | .ok s => devicePub devTopic st (nodeId ++ "/" ++ p.id) (some s) p.retained

/-- `Property.subscribe`. -/
def propSub (devTopic nodeId : String) (st : DeviceState) (p : Property) (sub : String) :
    Except PyErr Event :=
  if p.attached = false then
    .error (.runtime "Property cannot subscribe before being added to a Node")
  else deviceSub devTopic st (nodeId ++ "/" ++ p.id ++ "/" ++ sub)

/-! ## Property setters

Each setter mirrors its Python `@x.setter`: the bracketing ones save the
owning device's state, pass through INIT when it is restricted, assign and
publish, then restore the saved state. `name` and `value` publish without any
bracket, exactly as in the source. -/

/-- The `Property.name` setter. -/
def Property.set_name (devTopic nodeId : String) (st : DeviceState) (p : Property)
    (nm : String) : Except PyErr (Property × List Event) := do
  let p1 := { p with name := nm }
  let ev ← propPub devTopic nodeId st p1 "$name" (some nm)
  pure (p1, [ev])

/-- The `Property.data_type` setter. -/
def Property.set_data_type (devTopic nodeId : String) (st : DeviceState) (p : Property)
    (dt : String) : Except PyErr (Property × DeviceState × List Event) := do
  let (st1, e1) ← if st.restricted then stateSet devTopic DeviceState.init else pure (st, [])
  let p1 := { p with data_type := dt }
  let e2 ← propPub devTopic nodeId st1 p1 "$datatype" (some dt)
  let (st2, e3) ← if st.restricted then stateSet devTopic st else pure (st1, [])
  pure (p1, st2, e1 ++ [e2] ++ e3)

/-- The `Property.format` setter. -/
def Property.set_format (devTopic nodeId : String) (st : DeviceState) (p : Property)
    (fmt : Option String) : Except PyErr (Property × DeviceState × List Event) := do
  let (st1, e1) ← if st.restricted then stateSet devTopic DeviceState.init else pure (st, [])
  let p1 := { p with format := fmt }
  let e2 ← propPub devTopic nodeId st1 p1 "$format" fmt
  let (st2, e3) ← if st.restricted then stateSet devTopic st else pure (st1, [])
  pure (p1, st2, e1 ++ [e2] ++ e3)

/-- The `Property.settable` setter. -/
def Property.set_settable (devTopic nodeId : String) (st : DeviceState) (p : Property)
    (b : Bool) : Except PyErr (Property × DeviceState × List Event) := do
  let (st1, e1) ← if st.restricted then stateSet devTopic DeviceState.init else pure (st, [])
  let p1 := { p with settable := b }
  let e2 ← propPub devTopic nodeId st1 p1 "$settable" (some (if b then "true" else "false"))
  let (st2, e3) ← if st.restricted then stateSet devTopic st else pure (st1, [])
  pure (p1, st2, e1 ++ [e2] ++ e3)

/-- The `Property.retained` setter. -/
def Property.set_retained (devTopic nodeId : String) (st : DeviceState) (p : Property)
    (b : Bool) : Except PyErr (Property × DeviceState × List Event) := do
  let (st1, e1) ← if st.restricted then stateSet devTopic DeviceState.init else pure (st, [])
  let p1 := { p with retained := b }
  let e2 ← propPub devTopic nodeId st1 p1 "$retained" (some (if b then "true" else "false"))
  let (st2, e3) ← if st.restricted then stateSet devTopic st else pure (st1, [])
  pure (p1, st2, e1 ++ [e2] ++ e3)

/-- The `Property.unit` setter. -/
def Property.set_unit (devTopic nodeId : String) (st : DeviceState) (p : Property)
    (u : String) : Except PyErr (Property × DeviceState × List Event) := do
  let (st1, e1) ← if st.restricted then stateSet devTopic DeviceState.init else pure (st, [])
  let p1 := { p with unit := some u }
  let e2 ← propPub devTopic nodeId st1 p1 "$unit" (some u)
  let (st2, e3) ← if st.restricted then stateSet devTopic st else pure (st1, [])
  pure (p1, st2, e1 ++ [e2] ++ e3)

/-- The `Property.value` setter: assign when the value changed, then publish
the bare value unconditionally — with no restricted-state bracket. -/
def Property.set_value (devTopic nodeId : String) (st : DeviceState) (p : Property)
    (v : Option PyValue) : Except PyErr (Property × List Event) := do
  let p1 := if p.value = v then p else { p with value := v }
  let ev ← propPubBare devTopic nodeId st p1
  pure (p1, [ev])

/-! ## Attach pass and composition operations -/

/-- `Property._on_connect`: bind the node back-reference, republish every
attribute through its own setter, subscribe to `set` when settable, and
publish the current value when present. The `is not None` guards on
`settable` and `retained` are always true (both are coerced to `bool` by the
constructor), so those setters always run. -/
def Property.on_connect (devTopic nodeId : String) (st : DeviceState) (p : Property) :
    Except PyErr (Property × DeviceState × List Event) := do
  let p := { p with attached := true }
  let (p, e1) ← Property.set_name devTopic nodeId st p p.name
  let (p, st, e2) ← Property.set_data_type devTopic nodeId st p p.data_type
  let (p, st, e3) ←
    match p.format with
    | some f => Property.set_format devTopic nodeId st p (some f)
    | none => pure (p, st, ([] : List Event))
  let (p, st, e4) ← Property.set_settable devTopic nodeId st p p.settable
  let e5 ←
    if p.settable then do
      let ev ← propSub devTopic nodeId st p "set"
      pure [ev]
    else pure ([] : List Event)
  let (p, st, e6) ← Property.set_retained devTopic nodeId st p p.retained
  let (p, st, e7) ←
    match p.unit with
    | some u => Property.set_unit devTopic nodeId st p u
    | none => pure (p, st, ([] : List Event))
  let (p, e8) ←
    match p.value with
    | some v => Property.set_value devTopic nodeId st p (some v)
    | none => pure (p, ([] : List Event))
  pure (p, st, e1 ++ e2 ++ e3 ++ e4 ++ e5 ++ e6 ++ e7 ++ e8)

/-- `Property._on_disconnect`: drop the node back-reference and run the
`on_disconnect` hook. -/
def Property.on_disconnect (p : Property) : Property × List Event :=
  ({ p with attached := false }, [Event.propDiscHook p.id])

/-- `Node.add_property`: while disconnected, store into the pending
dictionary; otherwise reject duplicates, open the restricted-state bracket,
insert and attach the property, publish the child index — but first the
source reassigns the saved `state` variable with the *current* device state
(line 265, `state = self.state`), so the closing restore compares the INIT
state and never runs. The embedding reproduces that faithfully. -/
def Node.add_property (devTopic : String) (st : DeviceState) (n : Node) (p : Property) :
    Except PyErr (Node × DeviceState × List Event) := do
  let state := st
  if state = DeviceState.disconnected then
    pure ({ n with propertiesInit := dictInsert n.propertiesInit p.id p }, st, ([] : List Event))
  else if (dictLookup n.properties p.id).isSome then
    .error (.runtime ("Property [" ++ p.id ++ "] already exists."))
  else do
    let (st1, e1) ←
      if state.restricted then stateSet devTopic DeviceState.init
      else pure (st, ([] : List Event))
    let n1 := { n with properties := dictInsert n.properties p.id p }
    let (p2, st2, e2) ← Property.on_connect devTopic n.id st1 p
    let n2 := { n1 with properties := dictInsert n1.properties p.id p2 }
    let state2 := st2
    let e3 ← nodePub devTopic st2 n2 "$properties" (some (joinKeys (nodeProps st2 n2))) true
    let (st3, e4) ←
      if state2.restricted then stateSet devTopic state2
      else pure (st2, ([] : List Event))
    pure (n2, st3, e1 ++ e2 ++ [e3] ++ e4)

/-- The property-attach loop of `Node._on_connect` over the pending
dictionary's values. -/
def nodeAttachProps (devTopic : String) (st : DeviceState) (n : Node) :
    List (String × Property) → Except PyErr (Node × DeviceState × List Event)
  | [] => pure (n, st, ([] : List Event))
  | (_, p) :: rest => do
    let (n1, st1, e1) ← Node.add_property devTopic st n p
    let (n2, st2, e2) := ← nodeAttachProps devTopic st1 n1 rest
    pure (n2, st2, e1 ++ e2)

/-- `Node._on_connect`: bind the device back-reference, republish name and
type, clear `$properties`, attach every pending property, then run the
`on_connect` hook. -/
def Node.on_connect (devTopic : String) (st : DeviceState) (n : Node) :
    Except PyErr (Node × DeviceState × List Event) := do
  let n := { n with attached := true }
  let n1 := { n with name := n.name }
  let e1 ← nodePub devTopic st n1 "$name" (some n1.name) true
  let n2 := { n1 with type := n1.type }
  let e2 ← nodePub devTopic st n2 "$type" (some n2.type) true
  let e3 ← nodePub devTopic st n2 "$properties" none true
  let (n3, st1, e4) ← nodeAttachProps devTopic st n2 n2.propertiesInit
  pure (n3, st1, [e1, e2, e3] ++ e4 ++ [Event.nodeConnHook n3.id])

/-- The property-detach loop of `Node._on_disconnect`. -/
def detachProps : List (String × Property) → List (String × Property) × List Event
  | [] => ([], [])
  | (k, p) :: t =>
    let (p1, e1) := Property.on_disconnect p
    let (t1, e2) := detachProps t
    ((k, p1) :: t1, e1 ++ e2)

/-- `Node._on_disconnect`: detach every property the getter currently sees,
move that dictionary to the pending slot, clear the live one, drop the device
back-reference, and run the hook. -/
def Node.on_disconnect (st : DeviceState) (n : Node) : Node × List Event :=
  let (props1, evs) := detachProps (nodeProps st n)
  ({ n with propertiesInit := props1, properties := [], attached := false },
   evs ++ [Event.nodeDiscHook n.id])

/-- `Device.add_node`: while disconnected, store into the pending dictionary;
otherwise reject duplicates, bracket when restricted, insert and attach the
node, republish `$nodes`, and restore the saved state (this setter saves the
state correctly, unlike `Node.add_property`). -/
def Device.add_node (d : Device) (n : Node) : Except PyErr (Device × List Event) := do
  let state := d.state
  if state = DeviceState.disconnected then
    pure ({ d with nodesInit := dictInsert d.nodesInit n.id n }, ([] : List Event))
  else if (dictLookup d.nodes n.id).isSome then
    .error (.runtime ("Node [" ++ n.id ++ "] already exists."))
  else do
    let (st1, e1) ←
      if state.restricted then stateSet d.topic DeviceState.init
      else pure (state, ([] : List Event))
    let d1 := { d with state := st1, nodes := dictInsert d.nodes n.id n }
    let (n2, st2, e2) ← Node.on_connect d.topic st1 n
    let d2 := { d1 with state := st2, nodes := dictInsert d1.nodes n.id n2 }
    let e3 ← devicePub d2.topic d2.state "$nodes" (some (joinKeys (deviceNodes d2))) true
    let (st3, e4) ←
      if state.restricted then stateSet d.topic state
      else pure (st2, ([] : List Event))
    pure ({ d2 with state := st3 }, e1 ++ e2 ++ [e3] ++ e4)

/-- `Device.remove_node`: while disconnected, delete from the pending
dictionary; otherwise bracket when restricted, detach the node and delete it
from the live dictionary, then restore. The attached branch republishes no
`$nodes` index (compare `Node.remove_property`, which does republish
`$properties`). -/
def Device.remove_node (d : Device) (node_id : String) :
    Except PyErr (Device × Node × List Event) :=
  let state := d.state
  if state = DeviceState.disconnected then
    match dictLookup d.nodesInit node_id with
    | none => .error (.keyErr ("Node ID [" ++ node_id ++ "] not in nodes"))
    | some nd => .ok ({ d with nodesInit := dictRemove d.nodesInit node_id }, nd, [])
  else
    match dictLookup (deviceNodes d) node_id with
    | none => .error (.keyErr ("Node ID [" ++ node_id ++ "] not in nodes"))
    | some nd => do
      let (st1, e1) ←
        if state.restricted then stateSet d.topic DeviceState.init
        else pure (state, ([] : List Event))
      let (nd2, e2) := Node.on_disconnect st1 nd
      let d1 := { d with state := st1, nodes := dictRemove d.nodes node_id }
      let (st2, e3) ←
        if state.restricted then stateSet d.topic state
        else pure (st1, ([] : List Event))
      pure ({ d1 with state := st2 }, nd2, e1 ++ e2 ++ e3)

/-- `Device.disconnect`: runs the state setter with DISCONNECTED, whose
`$state` publish is guarded on the state just assigned — so the setter always
raises and the `client.disconnect()` call below it is unreachable. -/
def Device.disconnect (d : Device) : Except PyErr (Device × List Event) :=
  match stateSet d.topic DeviceState.disconnected with
  | .error err => .error err
  | .ok (s, ev) => .ok ({ d with state := s }, ev ++ [Event.clientDisconnect])

/-- The `Device.extensions` setter. -/
def Device.set_extensions (d : Device) (ext : List String) : Except PyErr (Device × List Event) := do
  let state := d.state
  let (st1, e1) ←
    if state.restricted then stateSet d.topic DeviceState.init
    else pure (state, ([] : List Event))
  let d1 := { d with state := st1, extensions := ext }
  let e2 ← devicePub d1.topic d1.state "$extensions" (some (String.intercalate "," ext)) true
  let (st2, e3) ←
    if state.restricted then stateSet d.topic state
    else pure (st1, ([] : List Event))
  pure ({ d1 with state := st2 }, e1 ++ [e2] ++ e3)

/-- The `Device.name` setter (no bracket in the source). -/
def Device.set_name (d : Device) (nm : String) : Except PyErr (Device × List Event) := do
  let d1 := { d with name := nm }
  let ev ← devicePub d1.topic d1.state "$name" (some nm) true
  pure (d1, [ev])

/-- The node-attach loop of `Device._on_connect` over the pending
dictionary's values. -/
def deviceAttachNodes : Device → List (String × Node) → Except PyErr (Device × List Event)
  | d, [] => pure (d, [])
  | d, (_, n) :: rest => do
    let (d1, e1) ← Device.add_node d n
    let (d2, e2) ← deviceAttachNodes d1 rest
    pure (d2, e1 ++ e2)

/-- `Device._on_connect` (the transport connected signal, rc = 0 on success):
subscribe to the broadcast space, enter INIT, republish the implementation if
any (the setter dereferences a misspelled name, `implemetation`, so that path
raises `NameError`), clear `$nodes`, attach every pending node, republish
extensions and name, publish `$homie`, and run the hook. The pass never sets
READY; the device ends it in INIT. -/
def Device.on_connect (d : Device) (rc : Int) : Except PyErr (Device × List Event) := do
  if rc ≠ 0 then .error (.runtime "Connection to MQTT broker failed")
  else do
    let e0 := Event.sub (d.root_topic ++ "/$broadcast/#")
    let (st1, e1) ← stateSet d.topic DeviceState.init
    let d := { d with state := st1 }
    if d.implementation.isSome then .error (.nameErr "name 'implemetation' is not defined")
    else do
      let e2 ← devicePub d.topic d.state "$nodes" none true
      let (d, e3) ← deviceAttachNodes d d.nodesInit
      let (d, e4) ← Device.set_extensions d d.extensions
      let (d, e5) ← Device.set_name d d.name
      let e6 ← devicePub d.topic d.state "$homie" (some d.homie_version) true
      pure (d, e0 :: e1 ++ [e2] ++ e3 ++ e4 ++ e5 ++ [e6, Event.devConnHook])

/-! ## Inbound message routing

Topics inside the routing functions are character lists, mirroring the
source's string slicing: `str.startswith`, `str.index("/")` with the
`target = topic[:offset]` / `topic[len(target) + 1:]` stripping pattern
(Python slicing clamps past the end, as `List.drop` does). -/

/-- `pre` is a leading run of `s` (Python `s.startswith(pre)`). -/
def beginsWith : List Char → List Char → Bool
  | [], _ => true
  | _ :: _, [] => false
  | a :: as, b :: bs => if a = b then beginsWith as bs else false

/-- `Property._on_message`: on the literal topic `set`, decode the payload by
datatype and run the value setter (a decode failure raises out of the
handler, skipping the hook); every delivery that returns runs the
`on_message` hook. The `settable` flag is not consulted. -/
def Property.on_message (devTopic nodeId : String) (st : DeviceState) (p : Property)
    (topic : List Char) (payload : String) : Except PyErr (Property × List Event) :=
  if topic = "set".data then
    match decodeSet p.data_type p.value payload with
    | .error err => .error err
    | .ok none => .ok (p, [Event.propMsgHook p.id topic])
    | .ok (some v) =>
      match Property.set_value devTopic nodeId st p (some v) with
      | .error err => .error err
      | .ok (p2, evs) => .ok (p2, evs ++ [Event.propMsgHook p.id topic])
  else .ok (p, [Event.propMsgHook p.id topic])

/-- Write a property back into whichever dictionary the getter chose (the
source mutates the shared object in place). -/
def nodeSetPropDict (st : DeviceState) (n : Node) (k : String) (p : Property) : Node :=
  if st = DeviceState.disconnected then
    { n with propertiesInit := dictInsert n.propertiesInit k p }
  else { n with properties := dictInsert n.properties k p }

/-- `Node._on_message`: match the first segment against the property
dictionary; on a match, strip it and recurse (mutating the shared message
object's topic), then run the node's `on_message` hook with whatever topic
the message now holds. Returns the final topic value alongside. -/
def Node.on_message (devTopic : String) (st : DeviceState) (n : Node)
    (topic : List Char) (payload : String) :
    Except PyErr (Node × List Char × List Event) :=
  let target := topic.takeWhile (fun c => c ≠ '/')
  match dictLookup (nodeProps st n) (String.mk target) with
  | some p =>
    let rest := topic.drop (target.length + 1)
    match Property.on_message devTopic n.id st p rest payload with
    | .error err => .error err
    | .ok (p2, evs) =>
      .ok (nodeSetPropDict st n (String.mk target) p2, rest,
        evs ++ [Event.nodeMsgHook n.id rest])
  | none => .ok (n, topic, [Event.nodeMsgHook n.id topic])

/-- Write a node back into whichever dictionary the getter chose. -/
def deviceSetNodeDict (d : Device) (k : String) (n : Node) : Device :=
  if d.state = DeviceState.disconnected then
    { d with nodesInit := dictInsert d.nodesInit k n }
  else { d with nodes := dictInsert d.nodes k n }

/-- `Device._on_message`: divert broadcast traffic, drop topics outside the
device's own subtree silently (before any hook), otherwise strip the device
topic, match the first remaining segment against the node dictionary,
recurse on a match, and run the device `on_message` hook with the message's
final topic. -/
def Device.on_message (d : Device) (topic : List Char) (payload : String) :
    Except PyErr (Device × List Event) :=
  let bc := (d.root_topic ++ "/$broadcast/").data
  if beginsWith bc topic then
    .ok (d, [Event.broadcastHook (topic.drop bc.length)])
  else if beginsWith ((d.topic ++ "/").data) topic then
    let rest := topic.drop ((d.topic).data.length + 1)
    let target := rest.takeWhile (fun c => c ≠ '/')
    match dictLookup (deviceNodes d) (String.mk target) with
    | some n =>
      let rest2 := rest.drop (target.length + 1)
      match Node.on_message d.topic d.state n rest2 payload with
      | .error err => .error err
      | .ok (n2, fin, evs) =>
        .ok (deviceSetNodeDict d (String.mk target) n2, evs ++ [Event.devMsgHook fin])
    | none => .ok (d, [Event.devMsgHook rest])
  else .ok (d, [])

/-! ## Concrete fixtures: the spec's scenario device

Device id `pump-1` under root `homie`, one node `motor` of type `actuator`,
one settable integer property `speed` with no value, format, or unit. -/

/-- The `speed` property as constructed (settable integer, defaults elsewhere). -/
def speed0 : Property := Property.init "speed" "Speed" "integer" none none true true none

/-- The `motor` node as constructed. -/
def motor0 : Node := Node.init "motor" "Motor" "actuator" [speed0]

/-- The `pump-1` device as constructed (disconnected, `motor` pending). -/
def pump0 : Device := Device.init "pump-1" "Pump 1" [motor0] [] none "homie"

/-- The `speed` property with its node back-reference bound. -/
def speedLive : Property := { speed0 with attached := true }

/-- The `motor` node attached, with `speed` in the live dictionary. -/
def motorLive : Node :=
  { motor0 with attached := true, properties := [("speed", speedLive)] }

/-- An empty attached `motor` node (used to exercise `add_property` on a
restricted-state device). -/
def motorEmptyLive : Node := { Node.init "motor" "Motor" "actuator" [] with attached := true }

/-- The device attached and steady in READY with the live tree (what the tree
looks like after the attach pass once the host has driven the state to
READY). -/
def pumpReady : Device :=
  { pump0 with state := DeviceState.ready, nodes := [("motor", motorLive)] }

/-- The `speed` property attached but with `settable` turned off and a current
value of 1 (e.g. after `settable` was assigned `False` post-attach, which
publishes `$settable=false` but never unsubscribes `set`). -/
def speedNoSet : Property :=
  { speedLive with settable := false, value := some (PyValue.int 1) }

/-- A second, distinct node carrying the same id `motor`. -/
def motorB : Node := Node.init "motor" "Motor B" "actuator" []

/-- The spec's representative datetime value, `2024-01-01T00:00:00` at UTC. -/
def dt2024 : PyDateTime :=
  { year := 2024, month := 1, day := 1, hour := 0, minute := 0, second := 0, tzMinutes := some 0 }

/-- The `$state` payloads published to the device topic within a trace. -/
def statePubs (devTopic : String) (evs : List Event) : List String :=
  evs.filterMap (fun e =>
    match e with
    | Event.pub t (some pl) _ => if t = devTopic ++ "/$state" then some pl else none
    | _ => none)

/-- A string usable as a single address segment: it contains no slash. -/
def slashFree (s : String) : Prop := '/' ∉ s.data

instance (s : String) : Decidable (slashFree s) := by
  unfold slashFree
  infer_instance

/-- The inbound topic `<root>/<deviceId>/<nodeId>/<propertyId>/set` aimed at a
device's property, as the routing sees it. -/
def setTopic (d : Device) (nid pid : String) : List Char :=
  (d.topic ++ "/" ++ nid ++ "/" ++ pid ++ "/set").data

/-! # Theorems -/

/-! ## List and string helper lemmas -/

theorem strData_append (a b : String) : (a ++ b).data = a.data ++ b.data := rfl

theorem strMk_data (s : String) : String.mk s.data = s := rfl

theorem beginsWith_append (a b c : List Char) :
    beginsWith (a ++ b) (a ++ c) = beginsWith b c := by
  induction a with
  | nil => rfl
  | cons x xs ih => simp [beginsWith, ih]

theorem beginsWith_self_append (a r : List Char) : beginsWith a (a ++ r) = true := by
  induction a with
  | nil => rfl
  | cons x xs ih => simp [beginsWith, ih]

theorem beginsWith_seg_ne (x y u v : List Char) (hx : '/' ∉ x) (hy : '/' ∉ y) (hne : x ≠ y) :
    beginsWith (x ++ '/' :: u) (y ++ '/' :: v) = false := by
  induction x generalizing y with
  | nil =>
    cases y with
    | nil => exact absurd rfl hne
    | cons c ys =>
      have hc : ('/' : Char) ≠ c := fun h => hy (h ▸ List.mem_cons_self c ys)
      simp [beginsWith, hc]
  | cons c xs ih =>
    cases y with
    | nil =>
      have hc : c ≠ '/' := fun h => hx (h ▸ List.mem_cons_self c xs)
      simp [beginsWith, hc]
    | cons e ys =>
      by_cases hce : c = e
      · subst hce
        have hxs : '/' ∉ xs := fun h => hx (List.mem_cons_of_mem c h)
        have hys : '/' ∉ ys := fun h => hy (List.mem_cons_of_mem c h)
        have hne2 : xs ≠ ys := fun h => hne (h ▸ rfl)
        simp only [List.cons_append, beginsWith, if_pos rfl]
        exact ih ys hxs hys hne2
      · simp [beginsWith, hce]

theorem beginsWith_append_cons (a : List Char) (c : Char) (x y : List Char) :
    beginsWith (a ++ c :: x) (a ++ c :: y) = beginsWith x y := by
  have h := beginsWith_append a (c :: x) (c :: y)
  simpa [beginsWith] using h

theorem beginsWith_seg_pre (a x y u w : List Char) (hx : '/' ∉ x) (hy : '/' ∉ y)
    (hne : x ≠ y) :
    beginsWith (a ++ '/' :: (x ++ '/' :: u)) (a ++ '/' :: (y ++ '/' :: w)) = false := by
  rw [beginsWith_append_cons]
  exact beginsWith_seg_ne x y u w hx hy hne

theorem beginsWith_two_seg (a x y u tl : List Char) (hx : '/' ∉ x) (hy : '/' ∉ y)
    (hne : x ≠ y) :
    beginsWith (a ++ '/' :: (x ++ '/' :: u)) ((a ++ '/' :: y) ++ '/' :: tl) = false := by
  have h0 : (a ++ '/' :: y) ++ '/' :: tl = a ++ '/' :: (y ++ '/' :: tl) := by simp
  rw [h0]
  exact beginsWith_seg_pre a x y u tl hx hy hne

theorem takeWhile_seg (x r : List Char) (hx : '/' ∉ x) :
    (x ++ '/' :: r).takeWhile (fun c => c ≠ '/') = x := by
  induction x with
  | nil => simp [List.takeWhile_cons]
  | cons c xs ih =>
    have hc : c ≠ '/' := fun h => hx (h ▸ List.mem_cons_self c xs)
    have hxs : '/' ∉ xs := fun h => hx (List.mem_cons_of_mem c h)
    have ih2 := ih hxs
    simp only [decide_not] at ih2 ⊢
    simp [List.takeWhile_cons, hc, ih2]

theorem drop_seg (x r : List Char) : (x ++ '/' :: r).drop (x.length + 1) = r := by
  induction x with
  | nil => rfl
  | cons c xs ih => simp [ih]

/-! ## Claim C1 -/

/-- C1 (counterexample): on the scenario device, the attach pass triggered by
the connect-success signal never publishes `$state=ready` and leaves the
device's state field equal to INIT, not READY — the source contains no
transition to READY at all. This refutes the claimed causal order, which ends
in `$state=ready` with the state field equal to READY. -/
theorem attach_trace_counterexample :
    Except.map
        (fun r => (r.2.contains (Event.pub "homie/pump-1/$state" (some "ready") true), r.1.state))
        (Device.on_connect pump0 0) =
      Except.ok (false, DeviceState.init) := by
  rfl

/-- C1 (amended): the attach pass on the scenario device produces exactly this
event sequence — broadcast subscribe, `$state=init`, `$nodes` cleared,
`motor/$name`, `motor/$type`, `motor/$properties` cleared, `motor/speed/$name`,
`motor/speed/$datatype=integer`, `motor/speed/$settable=true`, a subscribe to
`motor/speed/set`, `motor/speed/$retained=true`, `motor/speed/$unit=None`,
`motor/$properties=speed`, `$nodes=motor`, `$extensions`, `$name`,
`$homie=4.0.0` — and ends with the device state equal to INIT (no
`$state=ready` is ever published; driving the state to READY is left to the
host's `on_connect` hook). -/
theorem attach_trace_amended :
    Except.map (fun r => (r.1.state, r.2)) (Device.on_connect pump0 0) =
      Except.ok (DeviceState.init,
        [Event.sub "homie/$broadcast/#",
         Event.pub "homie/pump-1/$state" (some "init") true,
         Event.pub "homie/pump-1/$nodes" none true,
         Event.pub "homie/pump-1/motor/$name" (some "Motor") true,
         Event.pub "homie/pump-1/motor/$type" (some "actuator") true,
         Event.pub "homie/pump-1/motor/$properties" none true,
         Event.pub "homie/pump-1/motor/speed/$name" (some "Speed") true,
         Event.pub "homie/pump-1/motor/speed/$datatype" (some "integer") true,
         Event.pub "homie/pump-1/motor/speed/$settable" (some "true") true,
         Event.sub "homie/pump-1/motor/speed/set",
         Event.pub "homie/pump-1/motor/speed/$retained" (some "true") true,
         Event.pub "homie/pump-1/motor/speed/$unit" (some "None") true,
         Event.pub "homie/pump-1/motor/$properties" (some "speed") true,
         Event.nodeConnHook "motor",
         Event.pub "homie/pump-1/$nodes" (some "motor") true,
         Event.pub "homie/pump-1/$extensions" (some "") true,
         Event.pub "homie/pump-1/$name" (some "Pump 1") true,
         Event.pub "homie/pump-1/$homie" (some "4.0.0") true,
         Event.devConnHook]) := by
  rfl

/-! ## Claim C2 -/

/-- C2 (code evaluated at the failing input): `Node.add_property` on a node
attached to a device in READY publishes `$state=init` to open the bracket,
but line 265 of the source (`state = self.state`) overwrites the saved state
with the current INIT state, so the closing restore never runs: the only
`$state` value the operation publishes is `init`, and the device is left in
INIT instead of being returned to READY as the bracketing protocol requires. -/
theorem add_property_loses_state_restore :
    Except.map (fun r => (r.2.1, statePubs "homie/pump-1" r.2.2))
        (Node.add_property "homie/pump-1" DeviceState.ready motorEmptyLive speed0) =
      Except.ok (DeviceState.init, ["init"]) := by
  rfl

/-! ## Claim C3 -/

/-- C3 (code evaluated at the failing input): `Device.disconnect` raises
`RuntimeError` from every state, including DISCONNECTED — the state setter
assigns DISCONNECTED and then publishes `$state`, and the publish guard reads
the state just assigned — so the call is neither safe from every state nor an
idempotent no-op. -/
theorem disconnect_always_raises (d : Device) :
    Device.disconnect d = Except.error (PyErr.runtime "Device cannot publish when disconnected") := by
  rfl

/-! ## Claim C6 -/

/-- C6 (code evaluated at the failing input): delivering a `set` whose payload
is a malformed integer literal (`"abc"`) to the scenario device's integer
property raises `ValueError` out of the delivery context — the decode is not
wrapped in any handler, no observer hook runs, and the error is not confined
to a hook channel (the property's value is untouched only because the raise
precedes the assignment). -/
theorem malformed_set_raises :
    Device.on_message pumpReady (setTopic pumpReady "motor" "speed") "abc" =
      Except.error (PyErr.valueErr "invalid literal for int() with base 10: 'abc'") := by
  rfl

/-! ## Claim C7 -/

/-- C7 (code evaluated at the failing input): `Device.remove_node` on the
attached READY device removes and detaches the node, and brackets through
INIT, but never republishes `$nodes` — the complete event trace of the
operation is the two `$state` publishes and the detach hooks, with no
`$nodes` publish, so the retained child index still advertises the removed
node. -/
theorem remove_node_no_nodes_republish :
    Except.map (fun r => (dictLookup r.1.nodes "motor", r.2.1.attached, r.2.2))
        (Device.remove_node pumpReady "motor") =
      Except.ok (none, false,
        [Event.pub "homie/pump-1/$state" (some "init") true,
         Event.propDiscHook "speed",
         Event.nodeDiscHook "motor",
         Event.pub "homie/pump-1/$state" (some "ready") true]) := by
  rfl

/-! ## Claim C8 -/

/-- C8: the value codec round-trips on each supported datatype at the spec's
representative values — integer `-42`, float `3.14`, boolean `true`, string
(also covering `enum` and `color`, which share the string branch), datetime
`2024-01-01T00:00:00` UTC, and a 90-second duration (encoded `P0DT90S`) —
where the encoder is the conversion `Property.publish` applies to the bare
value and the decoder is the conversion `Property._on_message` applies to an
inbound `set`. -/
theorem codec_round_trip :
    (encodeForPublish "integer" (PyValue.int (-42)) = Except.ok "-42" ∧
      decodeSet "integer" none "-42" = Except.ok (some (PyValue.int (-42)))) ∧
    (encodeForPublish "float" (PyValue.float (normFloat 314 2)) = Except.ok "3.14" ∧
      decodeSet "float" none "3.14" = Except.ok (some (PyValue.float (normFloat 314 2)))) ∧
    (encodeForPublish "boolean" (PyValue.bool true) = Except.ok "true" ∧
      decodeSet "boolean" none "true" = Except.ok (some (PyValue.bool true))) ∧
    (encodeForPublish "string" (PyValue.str "hello") = Except.ok "hello" ∧
      decodeSet "string" none "hello" = Except.ok (some (PyValue.str "hello"))) ∧
    (encodeForPublish "enum" (PyValue.str "on") = Except.ok "on" ∧
      decodeSet "enum" none "on" = Except.ok (some (PyValue.str "on"))) ∧
    (encodeForPublish "color" (PyValue.str "255,0,0") = Except.ok "255,0,0" ∧
      decodeSet "color" none "255,0,0" = Except.ok (some (PyValue.str "255,0,0"))) ∧
    (encodeForPublish "datetime" (PyValue.datetime dt2024) =
        Except.ok "2024-01-01T00:00:00+00:00" ∧
      decodeSet "datetime" none "2024-01-01T00:00:00+00:00" =
        Except.ok (some (PyValue.datetime dt2024))) ∧
    (encodeForPublish "duration" (PyValue.duration (mkTimeDelta 0 90)) = Except.ok "P0DT90S" ∧
      decodeSet "duration" none "P0DT90S" =
        Except.ok (some (PyValue.duration (mkTimeDelta 0 90)))) :=
  ⟨⟨rfl, rfl⟩, ⟨rfl, rfl⟩, ⟨rfl, rfl⟩, ⟨rfl, rfl⟩, ⟨rfl, rfl⟩, ⟨rfl, rfl⟩, ⟨rfl, rfl⟩,
    ⟨rfl, rfl⟩⟩

/-! ## Claim C5 -/

/-- C5 (counterexample): a property with `settable=false` that receives a
message on `set` (payload `"5"`, current value 1) has its value mutated to 5
and republished — `Property._on_message` never consults `settable` — refuting
the claim that such a message is dropped without mutation or republish. -/
theorem set_ignores_settable_counterexample :
    Property.on_message "homie/pump-1" "motor" DeviceState.ready speedNoSet "set".data "5" =
      Except.ok ({ speedNoSet with value := some (PyValue.int 5) },
        [Event.pub "homie/pump-1/motor/speed" (some "5") true,
         Event.propMsgHook "speed" "set".data]) := by
  rfl

/-- C5 (amended): an inbound `set` is decoded and applied regardless of the
`settable` flag — for any attached integer property with `settable=false` and
a payload that parses as an integer, the delivery assigns the decoded value
and republishes the bare value; `settable` only gates the `set` subscription
during the attach pass. -/
theorem set_applied_regardless_of_settable (devTopic nodeId : String) (st : DeviceState)
    (p : Property) (pl : String) (n : Int)
    (hatt : p.attached = true) (hdt : p.data_type = "integer") (hset : p.settable = false)
    (hst : ¬st = DeviceState.disconnected) (hn : parseInt pl = Except.ok n) :
    Except.map (fun r => (r.1.value, r.2))
        (Property.on_message devTopic nodeId st p "set".data pl) =
      Except.ok (some (PyValue.int n),
        [Event.pub (devTopic ++ "/" ++ (nodeId ++ "/" ++ p.id)) (some (pyIntStr n)) p.retained,
         Event.propMsgHook p.id "set".data]) := by
  have hdec : decodeSet p.data_type p.value pl = Except.ok (some (PyValue.int n)) := by
    rw [hdt]
    simp [decodeSet, hn, Except.map]
  unfold Property.on_message
  rw [if_pos rfl, hdec]
  by_cases hv : p.value = some (PyValue.int n) <;>
    simp [Property.set_value, propPubBare, devicePub, encodeForPublish, pahoStr, hv, hdt, hatt,
      hst, Except.map, Bind.bind, Except.bind, pure, Except.pure]

/-- C5 (witness): the amended theorem applied to the concrete non-settable
`speed` property with payload `"5"`. -/
theorem set_applied_regardless_of_settable_witness :
    Except.map (fun r => (r.1.value, r.2))
        (Property.on_message "homie/pump-1" "motor" DeviceState.ready speedNoSet "set".data "5") =
      Except.ok (some (PyValue.int 5),
        [Event.pub "homie/pump-1/motor/speed" (some "5") true,
         Event.propMsgHook "speed" "set".data]) :=
  set_applied_regardless_of_settable "homie/pump-1" "motor" DeviceState.ready speedNoSet "5" 5
    rfl rfl rfl (by decide) rfl

/-! ## Claim C9 -/

/-- C9 (counterexample): while the device is DISCONNECTED, `add_node` with a
node whose id (`motor`) already names a pending child raises no error — it
silently overwrites the pending entry with the new node, changing the child
collection — refuting the claim that the collision fails in every state. -/
theorem disconnected_duplicate_add_overwrites :
    Device.add_node pump0 motorB =
      Except.ok ({ pump0 with nodesInit := [("motor", motorB)] }, []) ∧
    motorB ≠ motor0 := by
  exact ⟨rfl, by decide⟩

/-- C9 (amended): while attached (state not DISCONNECTED), `add_node` with a
duplicate id fails with a name-collision error and `remove_node` with an
unknown id fails with a not-found error, both leaving the collections
unchanged (the error is raised before any mutation); while DISCONNECTED,
`remove_node` with an unknown id still fails with the not-found error, but
`add_node` with a duplicate id silently overwrites the pending entry. -/
theorem add_remove_errors_amended :
    (∀ (d : Device) (n : Node), ¬d.state = DeviceState.disconnected →
      (dictLookup d.nodes n.id).isSome →
      Device.add_node d n =
        Except.error (PyErr.runtime ("Node [" ++ n.id ++ "] already exists."))) ∧
    (∀ (d : Device) (i : String), d.state = DeviceState.disconnected →
      dictLookup d.nodesInit i = none →
      Device.remove_node d i =
        Except.error (PyErr.keyErr ("Node ID [" ++ i ++ "] not in nodes"))) ∧
    (∀ (d : Device) (i : String), ¬d.state = DeviceState.disconnected →
      dictLookup (deviceNodes d) i = none →
      Device.remove_node d i =
        Except.error (PyErr.keyErr ("Node ID [" ++ i ++ "] not in nodes"))) ∧
    (∀ (d : Device) (n : Node), d.state = DeviceState.disconnected →
      Device.add_node d n =
        Except.ok ({ d with nodesInit := dictInsert d.nodesInit n.id n }, [])) := by
  refine ⟨?dupAdd, ?remDisc, ?remLive, ?addDisc⟩
  · intro d n hst hdup
    simp [Device.add_node, hst, hdup]
  · intro d i hst h
    simp [Device.remove_node, hst, h]
  · intro d i hst h
    simp [Device.remove_node, hst, h]
  · intro d n hst
    simp [Device.add_node, hst, pure, Except.pure]

/-- C9 (witness): the amended theorem applied at the concrete READY device
(duplicate add, unknown remove) and the concrete DISCONNECTED device (unknown
remove, duplicate add overwriting). -/
theorem add_remove_errors_amended_witness :
    Device.add_node pumpReady motorB =
      Except.error (PyErr.runtime ("Node [" ++ motorB.id ++ "] already exists.")) ∧
    Device.remove_node pump0 "absent" =
      Except.error (PyErr.keyErr ("Node ID [" ++ "absent" ++ "] not in nodes")) ∧
    Device.remove_node pumpReady "absent" =
      Except.error (PyErr.keyErr ("Node ID [" ++ "absent" ++ "] not in nodes")) ∧
    Device.add_node pump0 motorB =
      Except.ok ({ pump0 with nodesInit := dictInsert pump0.nodesInit motorB.id motorB }, []) :=
  ⟨add_remove_errors_amended.1 pumpReady motorB (by decide) (by decide),
   add_remove_errors_amended.2.1 pump0 "absent" (by decide) (by decide),
   add_remove_errors_amended.2.2.1 pumpReady "absent" (by decide) (by decide),
   add_remove_errors_amended.2.2.2 pump0 motorB (by decide)⟩

/-! ## Claim C10 -/

set_option maxHeartbeats 4000000 in
/-- C10: for every Property constructed with the default `unit=None`, the
stored unit is the four-character string `"None"` (the constructor coerces
through `str`), so the attach pass's `unit is not None` check succeeds and the
attach (which always runs with the device in INIT, the state `_on_connect`
sets before adding nodes) publishes `$unit` with payload `"None"`. -/
theorem unit_always_published_none (pid nm dt : String) (v : Option PyValue)
    (fmt : Option String) (s r : Bool) (devTopic nodeId : String) :
    (Property.init pid nm dt v fmt s r none).unit = some "None" ∧
    ((Property.init pid nm dt v fmt s r none).unit.isSome = true) ∧
    (∀ p2 st2 evs,
      Property.on_connect devTopic nodeId DeviceState.init (Property.init pid nm dt v fmt s r none) =
        Except.ok (p2, st2, evs) →
      Event.pub (devTopic ++ "/" ++ (nodeId ++ "/" ++ pid ++ "/" ++ "$unit")) (some "None") true ∈
        evs) := by
  refine ⟨rfl, rfl, ?_⟩
  intro p2 st2 evs h
  have hr : DeviceState.init.restricted = false := rfl
  unfold Property.on_connect Property.init at h
  cases fmt <;> cases s <;> cases v <;>
    simp [Property.set_name, Property.set_data_type, Property.set_format,
      Property.set_settable, Property.set_retained, Property.set_unit, Property.set_value,
      propPub, propSub, propPubBare, devicePub, deviceSub, stateSet, hr,
      Bind.bind, Except.bind, pure, Except.pure, pyStrOfOptStr] at h <;>
    first
    | (rcases h with ⟨hp, hst, hevs⟩
       subst hevs
       simp)
    | (rename_i w
       cases henc : encodeForPublish dt w with
       | error e => simp [henc] at h
       | ok s2 =>
         simp [henc] at h
         rcases h with ⟨hp, hst, hevs⟩
         subst hevs
         simp)

/-- C10 (witness): the scenario's `speed` property, built with no unit, stores
unit `"None"` and its attach publishes `$unit` with payload `"None"`. -/
theorem unit_always_published_none_witness :
    speed0.unit = some "None" ∧
    ∃ p2 st2 evs,
      Property.on_connect "homie/pump-1" "motor" DeviceState.init speed0 =
        Except.ok (p2, st2, evs) ∧
      Event.pub "homie/pump-1/motor/speed/$unit" (some "None") true ∈ evs :=
  ⟨(unit_always_published_none "speed" "Speed" "integer" none none true true
      "homie/pump-1" "motor").1,
   _, _, _, rfl,
   (unit_always_published_none "speed" "Speed" "integer" none none true true
      "homie/pump-1" "motor").2.2 _ _ _ rfl⟩

/-! ## Claim C4 -/

theorem strData_ne (a b : String) (h : a ≠ b) : a.data ≠ b.data :=
  fun hd => h (by rw [← strMk_data a, ← strMk_data b, hd])

/-- Reduction of `Device._on_message` on a topic inside the device's own
subtree: the broadcast diversion does not fire (the device id is a slash-free
segment other than `$broadcast`), the own-prefix check fires, and delivery
proceeds by matching the first remaining segment against the node
dictionary. -/
theorem deviceOnMessage_strip (d : Device) (tail : List Char) (payload : String)
    (hst : ¬d.state = DeviceState.disconnected) (hid : slashFree d.id)
    (hidb : d.id ≠ "$broadcast") :
    Device.on_message d ((d.topic).data ++ '/' :: tail) payload =
      match dictLookup d.nodes (String.mk (tail.takeWhile (fun c => c ≠ '/'))) with
      | some n =>
        (match Node.on_message d.topic d.state n
            (tail.drop ((tail.takeWhile (fun c => c ≠ '/')).length + 1)) payload with
         | Except.error e => Except.error e
         | Except.ok (n2, fin, evs) =>
           Except.ok
             ({ d with nodes :=
                 dictInsert d.nodes (String.mk (tail.takeWhile (fun c => c ≠ '/'))) n2 },
               evs ++ [Event.devMsgHook fin]))
      | none => Except.ok (d, [Event.devMsgHook tail]) := by
  have hslash : ("/" : String).data = ['/'] := rfl
  have htop : (d.topic).data = d.root_topic.data ++ '/' :: d.id.data := by
    simp [Device.topic, strData_append, hslash]
  have hbcpre : (d.root_topic ++ "/$broadcast/").data =
      d.root_topic.data ++ '/' :: ("$broadcast".data ++ '/' :: ([] : List Char)) := by
    simp [strData_append]
  have hbc : beginsWith ((d.root_topic ++ "/$broadcast/").data)
      ((d.topic).data ++ '/' :: tail) = false := by
    rw [hbcpre, htop]
    exact beginsWith_two_seg d.root_topic.data ("$broadcast".data) d.id.data [] tail
      (by decide) hid (strData_ne "$broadcast" d.id (fun h => hidb h.symm))
  have hdev : beginsWith ((d.topic ++ "/").data) ((d.topic).data ++ '/' :: tail) = true := by
    have h2 : (d.topic ++ "/").data = (d.topic).data ++ ['/'] := by
      simp [strData_append, hslash]
    rw [h2, show (d.topic).data ++ '/' :: tail = ((d.topic).data ++ ['/']) ++ tail by simp]
    exact beginsWith_self_append _ _
  have hdrop : ((d.topic).data ++ '/' :: tail).drop ((d.topic).data.length + 1) = tail :=
    drop_seg _ _
  unfold Device.on_message
  simp only [hbc, hdev, hdrop, Bool.false_eq_true, if_false, if_true, ite_true, ite_false,
    deviceNodes, deviceSetNodeDict, hst]

/-- C4: routing correctness. For any attached device and any slash-free
segments, delivery of `<root>/<deviceId>/<nodeId>/<propertyId>/set`:
(1) when nodeId and propertyId name children, reaches exactly that Property's
`set` handler — the outcome is that handler's outcome, wrapped with that
property's write-back and the node/device hooks, so no other property's
handler participates; (2) when nodeId names no child, is a silent no-op
(hooks at device level only, no node- or property-level handler, no error);
(3) when propertyId names no child of the matched node, is a silent no-op
below the node level; (4) when the device-id segment is not this device's id
(and not the broadcast marker), is dropped before any hook. -/
theorem routing_correct (d : Device) (nid pid other payload : String) (N : Node)
    (hst : ¬d.state = DeviceState.disconnected)
    (hid : slashFree d.id) (hidb : d.id ≠ "$broadcast")
    (hn : slashFree nid) (hp : slashFree pid)
    (ho : slashFree other) (hob : other ≠ "$broadcast") (hone : ¬other = d.id) :
    (∀ P, dictLookup d.nodes nid = some N → dictLookup N.properties pid = some P →
      Device.on_message d (setTopic d nid pid) payload =
        match Property.on_message d.topic N.id d.state P ("set".data) payload with
        | Except.error e => Except.error e
        | Except.ok (p2, evs) =>
          Except.ok
            ({ d with nodes := dictInsert d.nodes nid { N with properties := dictInsert N.properties pid p2 } },
              evs ++ [Event.nodeMsgHook N.id ("set".data), Event.devMsgHook ("set".data)])) ∧
    (dictLookup d.nodes nid = none →
      Device.on_message d (setTopic d nid pid) payload =
        Except.ok (d, [Event.devMsgHook (nid.data ++ '/' :: (pid.data ++ '/' :: "set".data))])) ∧
    (dictLookup d.nodes nid = some N → dictLookup N.properties pid = none →
      Device.on_message d (setTopic d nid pid) payload =
        Except.ok ({ d with nodes := dictInsert d.nodes nid N },
          [Event.nodeMsgHook N.id (pid.data ++ '/' :: "set".data),
           Event.devMsgHook (pid.data ++ '/' :: "set".data)])) ∧
    (Device.on_message d
        ((d.root_topic ++ "/" ++ other ++ "/" ++ nid ++ "/" ++ pid ++ "/set").data) payload =
      Except.ok (d, [])) := by
  have hslash : ("/" : String).data = ['/'] := rfl
  have hsetd : ("/set" : String).data = '/' :: "set".data := rfl
  have hTopic : setTopic d nid pid =
      (d.topic).data ++ '/' :: (nid.data ++ '/' :: (pid.data ++ '/' :: "set".data)) := by
    simp [setTopic, strData_append, hslash, hsetd, List.append_assoc]
  have htake1 : (nid.data ++ '/' :: (pid.data ++ '/' :: "set".data)).takeWhile
      (fun c => c ≠ '/') = nid.data := takeWhile_seg _ _ hn
  have hdrop1 : (nid.data ++ '/' :: (pid.data ++ '/' :: "set".data)).drop
      (nid.data.length + 1) = pid.data ++ '/' :: "set".data := drop_seg _ _
  have htake2 : (pid.data ++ '/' :: "set".data).takeWhile (fun c => c ≠ '/') = pid.data :=
    takeWhile_seg _ _ hp
  have hdrop2 : (pid.data ++ '/' :: "set".data).drop (pid.data.length + 1) = "set".data :=
    drop_seg _ _
  have hstrip := fun tl => deviceOnMessage_strip d tl payload hst hid hidb
  refine ⟨?match2, ?noNode, ?noProp, ?noDev⟩
  · intro P hnode hprop
    rw [hTopic, hstrip]
    rw [htake1, strMk_data, hnode, hdrop1]
    simp only [Node.on_message, htake2, strMk_data, nodeProps, nodeSetPropDict, hst,
      if_false, ite_false, hprop, hdrop2]
    cases hpm : Property.on_message d.topic N.id d.state P ("set".data) payload with
    | error e => simp
    | ok r =>
      cases r with
      | mk p2 evs => simp
  · intro hnode
    rw [hTopic, hstrip]
    rw [htake1, strMk_data, hnode]
  · intro hnode hprop
    rw [hTopic, hstrip]
    rw [htake1, strMk_data, hnode, hdrop1]
    simp only [Node.on_message, htake2, strMk_data, nodeProps, nodeSetPropDict, hst,
      if_false, ite_false, hprop]
    rfl
  · have hT2 : (d.root_topic ++ "/" ++ other ++ "/" ++ nid ++ "/" ++ pid ++ "/set").data =
        d.root_topic.data ++ '/' :: (other.data ++ '/' ::
          (nid.data ++ '/' :: (pid.data ++ '/' :: "set".data))) := by
      simp [strData_append, hslash, hsetd, List.append_assoc]
    have hbcpre : (d.root_topic ++ "/$broadcast/").data =
        d.root_topic.data ++ '/' :: ("$broadcast".data ++ '/' :: ([] : List Char)) := by
      simp [strData_append]
    have hbc2 : beginsWith ((d.root_topic ++ "/$broadcast/").data)
        (d.root_topic.data ++ '/' :: (other.data ++ '/' ::
          (nid.data ++ '/' :: (pid.data ++ '/' :: "set".data)))) = false := by
      rw [hbcpre]
      exact beginsWith_seg_pre d.root_topic.data "$broadcast".data other.data [] _
        (by decide) ho (strData_ne "$broadcast" other (fun h => hob h.symm))
    have hdev2 : beginsWith ((d.topic ++ "/").data)
        (d.root_topic.data ++ '/' :: (other.data ++ '/' ::
          (nid.data ++ '/' :: (pid.data ++ '/' :: "set".data)))) = false := by
      have h2 : (d.topic ++ "/").data =
          d.root_topic.data ++ '/' :: (d.id.data ++ '/' :: ([] : List Char)) := by
        simp [Device.topic, strData_append, hslash, List.append_assoc]
      rw [h2]
      exact beginsWith_seg_pre d.root_topic.data d.id.data other.data [] _
        hid ho (strData_ne d.id other (fun h => hone h.symm))
    rw [hT2]
    unfold Device.on_message
    simp only [hbc2, hdev2, Bool.false_eq_true, if_false, ite_false]

/-- C4 (witness): routing on the concrete scenario device — the inbound set at
`homie/pump-1/motor/speed/set` with payload `"75"` reaches exactly the `speed`
property (value becomes 75, the bare value is republished, and the three
hooks fire bottom-up), and a message for a different device id is dropped
with no hook at all. -/
theorem routing_correct_witness :
    Device.on_message pumpReady (setTopic pumpReady "motor" "speed") "75" =
      Except.ok
        ({ pumpReady with nodes := [("motor",
            { motorLive with properties :=
                [("speed", { speedLive with value := some (PyValue.int 75) })] })] },
          [Event.pub "homie/pump-1/motor/speed" (some "75") true,
           Event.propMsgHook "speed" "set".data,
           Event.nodeMsgHook "motor" "set".data,
           Event.devMsgHook "set".data]) ∧
    Device.on_message pumpReady ("homie/pump-2/motor/speed/set").data "75" =
      Except.ok (pumpReady, []) :=
  ⟨((routing_correct pumpReady "motor" "speed" "pump-2" "75" motorLive (by decide) (by decide)
      (by decide) (by decide) (by decide) (by decide) (by decide) (by decide)).1
      speedLive rfl rfl).trans (by rfl),
   (routing_correct pumpReady "motor" "speed" "pump-2" "75" motorLive (by decide) (by decide)
      (by decide) (by decide) (by decide) (by decide) (by decide) (by decide)).2.2.2⟩

end Pyhomie
